import Mathlib

/-!
Verification of the Feature Derivation & Risk Decision Engine of the
hybrid AHD prediction app (src/app.py).

The raw observation fields are the nine sidebar inputs; the derived fields
are the expressions of lines 61-71 of src/app.py; the feature dictionary is
`input_data_dict` (lines 79-100); schema alignment is the pandas column
selection `pd.DataFrame([input_data_dict])[feature_names]` (line 102), which
raises `KeyError` when a requested column is absent and drops columns not
requested; the threshold decision is the `proba > threshold` branch
(lines 122-125).  Python floats are modelled by exact rationals.
-/

namespace AHD

/-- Raw clinician input, mirroring the nine sidebar fields of src/app.py. -/
structure PatientObservation where
  age : ℤ
  weight : ℚ
  height : ℤ
  cd4 : ℤ
  vl : ℤ
  months_rx : ℤ
  who_stage : ℤ
  cd4_risk : String
  sex : String

/-- Line 61: `bmi = weight / ((height / 100) ** 2) if height > 0 else 0`. -/
def bmi (o : PatientObservation) : ℚ :=
  if o.height > 0 then o.weight / (((o.height : ℚ) / 100) ^ 2) else 0

/-- Line 62: `cd4_missing = 0 if cd4 > 0 else 1`. -/
def cd4_missing (o : PatientObservation) : ℤ :=
  if o.cd4 > 0 then 0 else 1

/-- Line 63: `vl_missing = 0 if vl > 0 else 1`. -/
def vl_missing (o : PatientObservation) : ℤ :=
  if o.vl > 0 then 0 else 1

/-- Line 64: `vl_suppressed = 1 if vl < 1000 else 0`. -/
def vl_suppressed (o : PatientObservation) : ℤ :=
  if o.vl < 1000 then 1 else 0

/-- Line 65: `cd4_risk_Severe = int(cd4_risk == "Severe")`. -/
def cd4_risk_Severe (o : PatientObservation) : ℤ :=
  if o.cd4_risk = "Severe" then 1 else 0

/-- Line 66: `cd4_risk_Moderate = int(cd4_risk == "Moderate")`. -/
def cd4_risk_Moderate (o : PatientObservation) : ℤ :=
  if o.cd4_risk = "Moderate" then 1 else 0

/-- Line 67: `cd4_risk_Normal = int(cd4_risk == "Normal")`. -/
def cd4_risk_Normal (o : PatientObservation) : ℤ :=
  if o.cd4_risk = "Normal" then 1 else 0

/-- Line 68: `Last_WHO_Stage_2 = int(who_stage == 2)`. -/
def Last_WHO_Stage_2 (o : PatientObservation) : ℤ :=
  if o.who_stage = 2 then 1 else 0

/-- Line 69: `Last_WHO_Stage_3 = int(who_stage == 3)`. -/
def Last_WHO_Stage_3 (o : PatientObservation) : ℤ :=
  if o.who_stage = 3 then 1 else 0

/-- Line 70: `Last_WHO_Stage_4 = int(who_stage == 4)`. -/
def Last_WHO_Stage_4 (o : PatientObservation) : ℤ :=
  if o.who_stage = 4 then 1 else 0

/-- Line 71: `Sex_M = int(sex.lower().startswith("m"))`. -/
def Sex_M (o : PatientObservation) : ℤ :=
  if o.sex.toLower.startsWith "m" then 1 else 0

/-- Lines 79-100: the derived feature dictionary, as an association list in
the order the Python dict literal is written. -/
def input_data_dict (o : PatientObservation) : List (String × ℚ) :=
  [("Age at reporting", (o.age : ℚ)),
   ("Weight", o.weight),
   ("Height", (o.height : ℚ)),
   ("BMI", bmi o),
   ("Latest CD4 Result", (o.cd4 : ℚ)),
   ("CD4_Missing", (cd4_missing o : ℚ)),
   ("Last VL Result", (o.vl : ℚ)),
   ("VL_Suppressed", (vl_suppressed o : ℚ)),
   ("VL_Missing", (vl_missing o : ℚ)),
   ("Months of Prescription", (o.months_rx : ℚ)),
   ("cd4_risk_Moderate", (cd4_risk_Moderate o : ℚ)),
   ("cd4_risk_Normal", (cd4_risk_Normal o : ℚ)),
   ("cd4_risk_Severe", (cd4_risk_Severe o : ℚ)),
   ("Last_WHO_Stage_2", (Last_WHO_Stage_2 o : ℚ)),
   ("Last_WHO_Stage_3", (Last_WHO_Stage_3 o : ℚ)),
   ("Last_WHO_Stage_4", (Last_WHO_Stage_4 o : ℚ)),
   ("Active_in_PMTCT_Missing", 0),
   ("Cacx_Screening_Missing", 0),
   ("Refill_Date_Missing", 0),
   ("Sex_M", (Sex_M o : ℚ))]

/-- Dictionary lookup by key (Python dict access; keys of `input_data_dict`
are distinct, so first-match lookup is exact). -/
def lookupF (features : List (String × ℚ)) (name : String) : Option ℚ :=
  match features with
  | [] => none
  | (k, v) :: rest => if k = name then some v else lookupF rest name

/-- Line 102: `pd.DataFrame([input_data_dict])[feature_names]` — select, in
schema order, the value of each requested column; fail (KeyError) when any
requested column is absent.  Columns not requested are dropped. -/
def align (features : List (String × ℚ)) : List String → Option (List ℚ)
  | [] => some []
  | name :: rest =>
    match lookupF features name, align features rest with
    | some v, some vs => some (v :: vs)
    | _, _ => none

/-- Outcome of the configurable-threshold branch, lines 122-125. -/
inductive ThresholdOutcome where
  | AboveThreshold
  | BelowThreshold
  deriving DecidableEq

/-- Lines 122-125: `if proba > threshold: ... else: ...`. -/
def thresholdDecision (proba threshold : ℚ) : ThresholdOutcome :=
  if proba > threshold then ThresholdOutcome.AboveThreshold
  else ThresholdOutcome.BelowThreshold

/-- Risk tiers of the fixed-band presentation mode. -/
inductive Tier where
  | Low
  | Moderate
  | High
  deriving DecidableEq

/-- Modelled from the spec: the fixed-band mode of the Threshold Decision
Engine (probability > 0.75 → High; probability > 0.45 → Moderate; else Low,
with 0.75 and 0.45 fixed constants).  src/app.py contains only the
configurable-threshold branch (lines 122-125); the fixed-band implementation
the spec describes is not under src/. -/
def fixedBandTier (p : ℚ) : Tier :=
  if p > 75 / 100 then Tier.High
  else if p > 45 / 100 then Tier.Moderate
  else Tier.Low

/-- The "Low Risk – Stable Patient" demo profile (src/app.py lines 47-50). -/
def lowRiskProfile : PatientObservation :=
  ⟨28, 65, 168, 850, 50, 3, 1, "Normal", "Female"⟩

/-- The "High Risk – Immediate Review" demo profile (src/app.py lines 55-58). -/
def highRiskProfile : PatientObservation :=
  ⟨42, 55, 160, 150, 5000, 1, 4, "Severe", "Male"⟩

/-- Boundary fixture: height 0, viral load 0 (the divide-by-zero guard case). -/
def heightZeroObs : PatientObservation :=
  ⟨35, 60, 0, 350, 0, 3, 1, "Unknown", "Female"⟩

/-- Boundary fixture: CD4 count 0 and viral load 0 (the missing-value case). -/
def cd4ZeroObs : PatientObservation :=
  ⟨35, 60, 165, 0, 0, 3, 1, "Unknown", "Female"⟩

/-- Fixture with both categorical fields outside their declared enum sets
(WHO stage 5, CD4 risk category "Borderline"). -/
def outOfEnumObs : PatientObservation :=
  ⟨35, 60, 165, 350, 1000, 3, 5, "Borderline", "Female"⟩

/-- Unfolding of `align` on a non-empty schema. -/
lemma align_cons (f : List (String × ℚ)) (name : String) (rest : List String) :
    align f (name :: rest) =
      match lookupF f name, align f rest with
      | some v, some vs => some (v :: vs)
      | _, _ => none := rfl

/-- `align` succeeds with vector `v` exactly when `v` is the pointwise
lookup of the schema names, in schema order. -/
lemma align_eq_some_iff (f : List (String × ℚ)) (s : List String) (v : List ℚ) :
    align f s = some v ↔ List.Forall₂ (fun n x => lookupF f n = some x) s v := by
  induction s generalizing v with
  | nil =>
    simp [align, List.forall₂_nil_left_iff]
  | cons name rest ih =>
    rw [align_cons]
    constructor
    · intro h
      rcases hl : lookupF f name with _ | x
      · rw [hl] at h; cases h
      · rcases ha : align f rest with _ | vs
        · rw [hl, ha] at h; cases h
        · rw [hl, ha] at h
          cases h
          exact List.Forall₂.cons hl ((ih vs).mp ha)
    · intro h
      cases h with
      | cons hx hrest => rw [hx, (ih _).mpr hrest]

/-- Appending a pair whose key differs from the looked-up name leaves the
lookup unchanged. -/
lemma lookupF_append_ne (f : List (String × ℚ)) (n k : String) (v : ℚ)
    (h : k ≠ n) : lookupF (f ++ [(k, v)]) n = lookupF f n := by
  induction f with
  | nil => simp [lookupF, h]
  | cons p rest ih =>
    obtain ⟨a, b⟩ := p
    simp only [List.cons_append, lookupF]
    split
    · rfl
    · exact ih

/-- C1: in fixed-band mode, probability > 0.75 yields tier High, otherwise
probability > 0.45 yields tier Moderate, otherwise tier Low, with 0.75 and
0.45 fixed constants (characterised by the three iffs). -/
theorem fixedBandTier_spec (p : ℚ) :
    (fixedBandTier p = Tier.High ↔ p > 75 / 100) ∧
    (fixedBandTier p = Tier.Moderate ↔ p ≤ 75 / 100 ∧ p > 45 / 100) ∧
    (fixedBandTier p = Tier.Low ↔ p ≤ 45 / 100) := by
  unfold fixedBandTier
  split_ifs with h1 h2
  · exact ⟨iff_of_true rfl h1,
      iff_of_false (by decide) fun h => absurd h1 (not_lt.mpr h.1),
      iff_of_false (by decide) (not_le.mpr (lt_trans (by norm_num) h1))⟩
  · exact ⟨iff_of_false (by decide) h1,
      iff_of_true rfl ⟨not_lt.mp h1, h2⟩,
      iff_of_false (by decide) (not_le.mpr h2)⟩
  · exact ⟨iff_of_false (by decide) h1,
      iff_of_false (by decide) fun h => h2 h.2,
      iff_of_true rfl (not_lt.mp h2)⟩

/-- C2: in configurable-threshold mode the decision is the strict comparison
`proba > threshold`; probability exactly equal to the threshold falls to
BelowThreshold, never AboveThreshold. -/
theorem thresholdDecision_spec (p t : ℚ) (hp0 : 0 ≤ p) (hp1 : p ≤ 1)
    (ht0 : 0 ≤ t) (ht1 : t ≤ 1) :
    (thresholdDecision p t = ThresholdOutcome.AboveThreshold ↔ p > t) ∧
    (thresholdDecision p t = ThresholdOutcome.BelowThreshold ↔ p ≤ t) ∧
    (p = t → thresholdDecision p t = ThresholdOutcome.BelowThreshold) := by
  unfold thresholdDecision
  split_ifs with h
  · exact ⟨iff_of_true rfl h, iff_of_false (by decide) (not_le.mpr h),
      fun he => absurd h (by rw [he]; exact lt_irrefl t)⟩
  · exact ⟨iff_of_false (by decide) h, iff_of_true rfl (not_lt.mp h),
      fun _ => rfl⟩

/-- Witness for C2 at probability = threshold = 0.45. -/
theorem thresholdDecision_spec_w :
    thresholdDecision (45 / 100) (45 / 100) = ThresholdOutcome.BelowThreshold :=
  (thresholdDecision_spec (45 / 100) (45 / 100) (by norm_num) (by norm_num)
    (by norm_num) (by norm_num)).2.2 rfl

/-- C3: BMI equals weight / (height/100)² when height > 0, and equals 0
when height = 0. -/
theorem bmi_spec (o : PatientObservation) :
    (0 < o.height → bmi o = o.weight / (((o.height : ℚ) / 100) ^ 2)) ∧
    (o.height = 0 → bmi o = 0) := by
  constructor
  · intro h; rw [bmi, if_pos h]
  · intro h; rw [bmi, if_neg (by omega)]

/-- Witness for C3 at the low-risk demo profile and the height-0 fixture. -/
theorem bmi_spec_w :
    bmi lowRiskProfile =
      lowRiskProfile.weight / (((lowRiskProfile.height : ℚ)) / 100) ^ 2 ∧
    bmi heightZeroObs = 0 :=
  ⟨(bmi_spec lowRiskProfile).1 (by decide), (bmi_spec heightZeroObs).2 rfl⟩

/-- C4 (amended): CD4_Missing = 1 iff CD4 count ≤ 0 and VL_Missing = 1 iff
viral load ≤ 0, but the raw CD4 count (and raw viral load) is always
included as the numeric feature value, even when the missing flag is 1. -/
theorem missing_flags_spec (o : PatientObservation) :
    (cd4_missing o = 1 ↔ o.cd4 ≤ 0) ∧
    (vl_missing o = 1 ↔ o.vl ≤ 0) ∧
    lookupF (input_data_dict o) "Latest CD4 Result" = some ((o.cd4 : ℚ)) ∧
    lookupF (input_data_dict o) "Last VL Result" = some ((o.vl : ℚ)) := by
  refine ⟨?_, ?_, rfl, rfl⟩
  · unfold cd4_missing
    split_ifs with h
    · exact iff_of_false (by decide) (not_le.mpr h)
    · exact iff_of_true rfl (not_lt.mp h)
  · unfold vl_missing
    split_ifs with h
    · exact iff_of_false (by decide) (not_le.mpr h)
    · exact iff_of_true rfl (not_lt.mp h)

/-- Counterexample for C4 as stated: at CD4 count 0 the flag CD4_Missing
is 1 AND the CD4 count is simultaneously used as the numeric feature value
of column "Latest CD4 Result" — the two are not mutually exclusive. -/
theorem cd4_exclusivity_cex :
    ¬ (cd4_missing cd4ZeroObs ≠ 1 ∨
       lookupF (input_data_dict cd4ZeroObs) "Latest CD4 Result" ≠
         some ((cd4ZeroObs.cd4 : ℚ))) := by
  rintro (h | h) <;> exact h rfl

/-- C5: VL_Suppressed = 1 iff viral load < 1000, else 0, and it is a
function of the raw viral load alone (hence independent of VL_Missing). -/
theorem vl_suppressed_spec (o p : PatientObservation) :
    (vl_suppressed o = 1 ↔ o.vl < 1000) ∧
    (vl_suppressed o = 0 ↔ 1000 ≤ o.vl) ∧
    (o.vl = p.vl → vl_suppressed o = vl_suppressed p) := by
  refine ⟨?_, ?_, ?_⟩
  · unfold vl_suppressed
    split_ifs with h
    · exact iff_of_true rfl h
    · exact iff_of_false (by decide) h
  · unfold vl_suppressed
    split_ifs with h
    · exact iff_of_false (by decide) (not_le.mpr h)
    · exact iff_of_true rfl (not_lt.mp h)
  · intro h; unfold vl_suppressed; rw [h]

/-- Witness for C5: suppressed at VL 50, unsuppressed at VL 5000, and equal
on two distinct observations sharing viral load 0. -/
theorem vl_suppressed_spec_w :
    vl_suppressed lowRiskProfile = 1 ∧ vl_suppressed highRiskProfile = 0 ∧
    vl_suppressed cd4ZeroObs = vl_suppressed heightZeroObs :=
  ⟨(vl_suppressed_spec lowRiskProfile lowRiskProfile).1.mpr (by decide),
   (vl_suppressed_spec highRiskProfile highRiskProfile).2.1.mpr (by decide),
   (vl_suppressed_spec cd4ZeroObs heightZeroObs).2.2 rfl⟩

/-- C6: at most one of the three CD4-risk indicators is 1, with category
"Unknown" yielding all three 0; at most one of the three WHO-stage
indicators is 1, with stage 1 yielding all three 0. -/
theorem one_hot_spec (o : PatientObservation) :
    cd4_risk_Severe o + cd4_risk_Moderate o + cd4_risk_Normal o ≤ 1 ∧
    (o.cd4_risk = "Unknown" →
      cd4_risk_Severe o = 0 ∧ cd4_risk_Moderate o = 0 ∧ cd4_risk_Normal o = 0) ∧
    Last_WHO_Stage_2 o + Last_WHO_Stage_3 o + Last_WHO_Stage_4 o ≤ 1 ∧
    (o.who_stage = 1 →
      Last_WHO_Stage_2 o = 0 ∧ Last_WHO_Stage_3 o = 0 ∧ Last_WHO_Stage_4 o = 0) := by
  refine ⟨?_, fun h => ?_, ?_, fun h => ?_⟩
  · unfold cd4_risk_Severe cd4_risk_Moderate cd4_risk_Normal
    split_ifs <;> simp_all
  · simp [cd4_risk_Severe, cd4_risk_Moderate, cd4_risk_Normal, h]
  · unfold Last_WHO_Stage_2 Last_WHO_Stage_3 Last_WHO_Stage_4
    split_ifs <;> simp_all
  · simp [Last_WHO_Stage_2, Last_WHO_Stage_3, Last_WHO_Stage_4, h]

/-- Witness for C6 at the fixture with category "Unknown" and WHO stage 1. -/
theorem one_hot_spec_w :
    cd4_risk_Severe heightZeroObs = 0 ∧ cd4_risk_Moderate heightZeroObs = 0 ∧
    cd4_risk_Normal heightZeroObs = 0 ∧ Last_WHO_Stage_2 heightZeroObs = 0 ∧
    Last_WHO_Stage_3 heightZeroObs = 0 ∧ Last_WHO_Stage_4 heightZeroObs = 0 := by
  obtain ⟨-, h2, -, h4⟩ := one_hot_spec heightZeroObs
  obtain ⟨a, b, c⟩ := h2 rfl
  obtain ⟨d, e, g⟩ := h4 rfl
  exact ⟨a, b, c, d, e, g⟩

/-- C7: alignment yields no vector exactly when some schema name is absent
from the feature set, and an extra key absent from the schema never changes
the result (it is dropped). -/
theorem align_mismatch_spec (f : List (String × ℚ)) (s : List String) :
    (align f s = none ↔ ∃ n ∈ s, lookupF f n = none) ∧
    ∀ k v, k ∉ s → align (f ++ [(k, v)]) s = align f s := by
  constructor
  · induction s with
    | nil => simp [align]
    | cons name rest ih =>
      rw [align_cons]
      rcases hl : lookupF f name with _ | x
      · simp only [hl]
        constructor
        · intro _; exact ⟨name, List.mem_cons_self _ _, hl⟩
        · intro _; trivial
      · rcases ha : align f rest with _ | vs
        · simp only [hl, ha]
          constructor
          · intro _
            obtain ⟨n, hn, hlook⟩ := ih.mp ha
            exact ⟨n, List.mem_cons_of_mem _ hn, hlook⟩
          · intro _; trivial
        · simp only [hl, ha]
          constructor
          · intro h; cases h
          · rintro ⟨n, hn, hlook⟩
            rcases List.mem_cons.mp hn with rfl | hn'
            · rw [hl] at hlook; cases hlook
            · rw [ih.mpr ⟨n, hn', hlook⟩] at ha; cases ha
  · intro k v hk
    induction s with
    | nil => rfl
    | cons name rest ih =>
      have hne : k ≠ name := fun h => hk (h ▸ List.mem_cons_self _ _)
      rw [align_cons, align_cons, lookupF_append_ne f name k v hne,
        ih fun h => hk (List.mem_cons_of_mem _ h)]

/-- Witness for C7: a missing schema name yields no vector; an extra key
absent from the schema leaves the result unchanged. -/
theorem align_mismatch_spec_w :
    align [("a", (1 : ℚ))] ["z"] = none ∧
    align ([("a", (1 : ℚ))] ++ [("c", 3)]) ["a"] = align [("a", (1 : ℚ))] ["a"] :=
  ⟨(align_mismatch_spec [("a", 1)] ["z"]).1.mpr ⟨"z", by decide, rfl⟩,
   (align_mismatch_spec [("a", 1)] ["a"]).2 "c" 3 (by decide)⟩

/-- C8: alignment is deterministic (aligning twice yields the identical
vector), the i-th output position holds the looked-up value of the i-th
schema name, and selecting schema names through any index list (in
particular any permutation) permutes the output identically. -/
theorem align_order_preserving (f : List (String × ℚ)) (s : List String)
    (v : List ℚ) (h : align f s = some v) :
    (∀ w, align f s = some w → w = v) ∧
    List.Forall₂ (fun n x => lookupF f n = some x) s v ∧
    ∀ idxs : List ℕ, (∀ j ∈ idxs, j < s.length) →
      align f (idxs.map fun j => s.getD j "") =
        some (idxs.map fun j => v.getD j 0) := by
  have hforall := (align_eq_some_iff f s v).mp h
  have hlen := hforall.length_eq
  have hpt := (List.forall₂_iff_get.mp hforall).2
  refine ⟨fun w hw => by rw [h] at hw; exact (Option.some.inj hw).symm, hforall, ?_⟩
  intro idxs hidx
  induction idxs with
  | nil => rfl
  | cons j rest ih =>
    have hj : j < s.length := hidx j (List.mem_cons_self _ _)
    have hj' : j < v.length := hlen ▸ hj
    have hkey : lookupF f (s.getD j "") = some (v.getD j 0) := by
      rw [List.getD_eq_get s "" hj, List.getD_eq_get v 0 hj']
      exact hpt j hj hj'
    have hrest := ih fun x hx => hidx x (List.mem_cons_of_mem _ hx)
    simp only [List.map_cons, align_cons, hkey, hrest]

/-- Witness for C8 on a concrete feature set and schema, reversing the
schema with the index list [1, 0]. -/
theorem align_order_preserving_w :
    List.Forall₂ (fun n x => lookupF [("a", (1 : ℚ)), ("b", 2)] n = some x)
      ["b", "a"] [2, 1] ∧
    align [("a", (1 : ℚ)), ("b", 2)] ([1, 0].map fun j => ["b", "a"].getD j "") =
      some ([1, 0].map fun j => ([2, 1] : List ℚ).getD j 0) := by
  obtain ⟨-, h2, h3⟩ :=
    align_order_preserving [("a", (1 : ℚ)), ("b", 2)] ["b", "a"] [2, 1] rfl
  exact ⟨h2, h3 [1, 0] (by decide)⟩

/-- C9 (amended): Feature Derivation performs no enum validation; an
out-of-enum categorical value is silently encoded as the all-zero baseline
while the full 20-entry feature set is still produced. -/
theorem out_of_enum_encoded (o : PatientObservation) :
    (o.who_stage ≠ 2 → o.who_stage ≠ 3 → o.who_stage ≠ 4 →
      Last_WHO_Stage_2 o = 0 ∧ Last_WHO_Stage_3 o = 0 ∧ Last_WHO_Stage_4 o = 0) ∧
    (o.cd4_risk ≠ "Severe" → o.cd4_risk ≠ "Moderate" → o.cd4_risk ≠ "Normal" →
      cd4_risk_Severe o = 0 ∧ cd4_risk_Moderate o = 0 ∧ cd4_risk_Normal o = 0) ∧
    (input_data_dict o).length = 20 := by
  refine ⟨fun h2 h3 h4 => ?_, fun hs hm hn => ?_, rfl⟩
  · unfold Last_WHO_Stage_2 Last_WHO_Stage_3 Last_WHO_Stage_4
    rw [if_neg h2, if_neg h3, if_neg h4]
    exact ⟨rfl, rfl, rfl⟩
  · unfold cd4_risk_Severe cd4_risk_Moderate cd4_risk_Normal
    rw [if_neg hs, if_neg hm, if_neg hn]
    exact ⟨rfl, rfl, rfl⟩

/-- Witness for C9's amended statement at the out-of-enum fixture. -/
theorem out_of_enum_encoded_w :
    Last_WHO_Stage_2 outOfEnumObs = 0 ∧ Last_WHO_Stage_3 outOfEnumObs = 0 ∧
    Last_WHO_Stage_4 outOfEnumObs = 0 ∧ cd4_risk_Severe outOfEnumObs = 0 ∧
    cd4_risk_Moderate outOfEnumObs = 0 ∧ cd4_risk_Normal outOfEnumObs = 0 := by
  obtain ⟨hwho, hcd4, -⟩ := out_of_enum_encoded outOfEnumObs
  obtain ⟨a, b, c⟩ := hwho (by decide) (by decide) (by decide)
  obtain ⟨d, e, g⟩ := hcd4 (by decide) (by decide) (by decide)
  exact ⟨a, b, c, d, e, g⟩

/-- Counterexample for C9 as stated: at WHO stage 5 and CD4 risk category
"Borderline" — both outside their declared enum sets — derivation raises
nothing: it produces the complete 20-entry feature set with the six
indicators silently all-zero. -/
theorem out_of_enum_cex :
    outOfEnumObs.who_stage = 5 ∧ outOfEnumObs.cd4_risk = "Borderline" ∧
    Last_WHO_Stage_2 outOfEnumObs = 0 ∧ Last_WHO_Stage_3 outOfEnumObs = 0 ∧
    Last_WHO_Stage_4 outOfEnumObs = 0 ∧ cd4_risk_Severe outOfEnumObs = 0 ∧
    cd4_risk_Moderate outOfEnumObs = 0 ∧ cd4_risk_Normal outOfEnumObs = 0 ∧
    (input_data_dict outOfEnumObs).length = 20 :=
  ⟨rfl, rfl, rfl, rfl, rfl, rfl, rfl, rfl, rfl⟩

/-- C10: at raw viral load exactly 0, the derivation sets both
VL_Missing = 1 and VL_Suppressed = 1 simultaneously. -/
theorem vl_zero_missing_and_suppressed (o : PatientObservation)
    (h : o.vl = 0) : vl_missing o = 1 ∧ vl_suppressed o = 1 := by
  unfold vl_missing vl_suppressed
  rw [h]
  exact ⟨rfl, rfl⟩

/-- Witness for C10 at the viral-load-0 fixture. -/
theorem vl_zero_missing_and_suppressed_w :
    vl_missing cd4ZeroObs = 1 ∧ vl_suppressed cd4ZeroObs = 1 :=
  vl_zero_missing_and_suppressed cd4ZeroObs rfl

end AHD
